import Mathlib

/-!
# Verification of the schemix query-building engine

A shallow embedding, in Lean 4, of the query-construction core of the
schemix ORM (packages/schemix/src/schemix): the dialect and parameter
collector (dialects.py), the expression AST and its rendering
(query/__init__.py), the column model and serialization mixins (base.py),
the schema column-definition generator (schema.py), and the SELECT and
INSERT builders (query/select.py, query/insert.py).

Python values are embedded as an inductive `PyVal`; machine-level Python
ints are unbounded, matching Lean `Int`/`Nat`.  Fallible Python code
(raising exceptions) is embedded with `Except PyError`.  Mutable objects
(the parameter collector, the builder configuration) are embedded by
explicit state passing.
-/

/-- A single-quote character as a string (used when building the exact
error-message texts produced by the Python f-strings). -/
def pyQuote : String := String.mk [Char.ofNat 39]

/-- Python exceptions that the embedded code can raise.  `queryError m`
carries the message passed to the `QueryError` constructor (the Python
class additionally prefixes the rendered text with "Query Error: ", which
does not affect which names appear in the message). -/
inductive PyError where
  | queryError (msg : String)
  | typeError (msg : String)
  | attributeError (msg : String)
  | keyError (msg : String)
  | indexError (msg : String)
  | valueError (msg : String)
  deriving DecidableEq, Repr

/-- dialects.py: `class Dialect(StrEnum)` with members SQLITE and POSTGRESQL. -/
inductive Dialect where
  | sqlite
  | postgresql
  deriving DecidableEq, Repr

/-- dialects.py `get_placeholder(dialect, index)`: `"?"` for sqlite, and the
f-string `f"${index + 1}"` for postgresql.  The claims only concern
non-negative indices, so the Python `int` index is embedded as `Nat`. -/
def getPlaceholder (dialect : Dialect) (index : Nat) : String :=
  match dialect with
  | .sqlite => "?"
  | .postgresql => "$" ++ Nat.repr (index + 1)

/-- A proleptic-Gregorian calendar date as held by `datetime.date`
(year, month, day). -/
structure PyDate where
  year : Nat
  month : Nat
  day : Nat
  deriving DecidableEq, Repr

/-- A wall-clock time as held by a naive `datetime.time`
(hour, minute, second, microsecond). -/
structure PyTime where
  hour : Nat
  minute : Nat
  second : Nat
  microsecond : Nat
  deriving DecidableEq, Repr

/-- A naive `datetime.datetime` (date plus time fields). -/
structure PyDateTime where
  date : PyDate
  time : PyTime
  deriving DecidableEq, Repr

/-- The Python values that flow through the engine: None, booleans,
(unbounded) integers, strings, lists, dicts with string keys in insertion
order, and the `datetime` family.  Floats are not needed by any claim and
are omitted. -/
inductive PyVal where
  | none
  | bool (b : Bool)
  | int (n : Int)
  | str (s : String)
  | list (xs : List PyVal)
  | dict (kvs : List (String × PyVal))
  | date (d : PyDate)
  | time (t : PyTime)
  | datetime (dt : PyDateTime)

/-- dialects.py `class ParameterCollector`: a dialect plus the mutable
`self.params` list, embedded as explicit state. -/
structure Collector where
  dialect : Dialect
  params : List PyVal

/-- `ParameterCollector.__init__(dialect)`: `self.params = []`. -/
def Collector.init (dialect : Dialect) : Collector :=
  { dialect := dialect, params := [] }

/-- `ParameterCollector.add(param)`: appends the parameter and returns
`get_placeholder(self.dialect, len(self.params) - 1)` together with the
updated collector state. -/
def Collector.add (c : Collector) (param : PyVal) : String × Collector :=
  let ps := c.params ++ [param]
  (getPlaceholder c.dialect (ps.length - 1), { c with params := ps })

/-- Feeds a list of values to `ParameterCollector.add` one after the
other, returning the placeholder strings in call order and the final
collector state. -/
def Collector.addAll (c : Collector) (vs : List PyVal) : List String × Collector :=
  match vs with
  | [] => ([], c)
  | v :: rest =>
    let (ph, c1) := c.add v
    let (phs, c2) := c1.addAll rest
    (ph :: phs, c2)

/-! ## ISO-format printing, as produced by the `datetime` classes

`datetime.date.isoformat` prints `YYYY-MM-DD`; `datetime.time.isoformat`
prints `HH:MM:SS` and appends `.ffffff` when the microsecond field is
non-zero (timespec "auto"); `datetime.datetime.isoformat` joins the two
with the default separator `T`.  The fixed-width zero-padded fields
(`%02d`, `%04d`, `%06d`) are embedded below; the embeddings agree with
the C formatting on the field ranges that `datetime` objects can hold
(year 1..9999, month 1..12, and so on). -/

/-- Zero-padded two-digit decimal rendering (`%02d`) of `n < 100`. -/
def print2 (n : Nat) : List Char :=
  [Char.ofNat (48 + n / 10 % 10), Char.ofNat (48 + n % 10)]

/-- Zero-padded four-digit decimal rendering (`%04d`) of `n < 10000`. -/
def print4 (n : Nat) : List Char :=
  print2 (n / 100) ++ print2 (n % 100)

/-- Zero-padded six-digit decimal rendering (`%06d`) of `n < 1000000`. -/
def print6 (n : Nat) : List Char :=
  print2 (n / 10000) ++ print2 (n / 100 % 100) ++ print2 (n % 100)

/-- `datetime.date.isoformat()`: `YYYY-MM-DD`. -/
def isoDateChars (d : PyDate) : List Char :=
  print4 d.year ++ [Char.ofNat 45] ++ print2 d.month ++ [Char.ofNat 45] ++ print2 d.day

/-- `datetime.time.isoformat()` with the default timespec: `HH:MM:SS`,
plus `.ffffff` when the microsecond field is non-zero. -/
def isoTimeChars (t : PyTime) : List Char :=
  let base := print2 t.hour ++ [Char.ofNat 58] ++ print2 t.minute
    ++ [Char.ofNat 58] ++ print2 t.second
  if t.microsecond = 0 then base else base ++ [Char.ofNat 46] ++ print6 t.microsecond

/-- `datetime.datetime.isoformat()` with the default separator `T`. -/
def isoDatetimeChars (dt : PyDateTime) : List Char :=
  isoDateChars dt.date ++ [Char.ofNat 84] ++ isoTimeChars dt.time

/-- String form of `datetime.date.isoformat()`. -/
def isoDate (d : PyDate) : String := String.mk (isoDateChars d)

/-- String form of `datetime.time.isoformat()`. -/
def isoTime (t : PyTime) : String := String.mk (isoTimeChars t)

/-- String form of `datetime.datetime.isoformat()`. -/
def isoDatetime (dt : PyDateTime) : String := String.mk (isoDatetimeChars dt)

/-! ## Python `repr` / `str` of embedded values

Needed for the exact error-message texts (`sorted(...)` lists rendered
inside f-strings) and for the `collector.add(str(operand))` fallback of
`_operand_to_sql`. -/

mutual

/-- CPython `repr` of an embedded value (strings without quotes or
escape-worthy characters render between single quotes; containers use the
", " / ": " item separators). -/
def pyrepr : PyVal → String
  | .none => "None"
  | .bool b => if b then "True" else "False"
  | .int n => toString n
  | .str s => pyQuote ++ s ++ pyQuote
  | .list xs => "[" ++ String.intercalate ", " (pyreprList xs) ++ "]"
  | .dict kvs => "\x7b" ++ String.intercalate ", " (pyreprDict kvs) ++ "\x7d"
  | .date d => "datetime.date" ++ "(" ++ toString d.year ++ ", " ++ toString d.month
      ++ ", " ++ toString d.day ++ ")"
  | .time t => "datetime.time" ++ "(" ++ toString t.hour ++ ", " ++ toString t.minute
      ++ ", " ++ toString t.second ++ ", " ++ toString t.microsecond ++ ")"
  | .datetime dt => "datetime.datetime" ++ "(" ++ toString dt.date.year ++ ", "
      ++ toString dt.date.month ++ ", " ++ toString dt.date.day ++ ")"

def pyreprList : List PyVal → List String
  | [] => []
  | v :: rest => pyrepr v :: pyreprList rest

def pyreprDict : List (String × PyVal) → List String
  | [] => []
  | (k, v) :: rest => (pyQuote ++ k ++ pyQuote ++ ": " ++ pyrepr v) :: pyreprDict rest

end

/-- CPython `str` of an embedded value: identity on strings, the ISO form
on the `datetime` family, and `repr` otherwise. -/
def pystr (v : PyVal) : String :=
  match v with
  | .str s => s
  | .date d => isoDate d
  | .time t => isoTime t
  | .datetime dt => isoDatetime dt
  | v => pyrepr v

/-! ## The column model (base.py `ColumnType` and its mixins)

A concrete column class supplies `get_sql_type()` (a string fixed by the
class and its type parameters, embedded as the `sqlType` field) and one of
the serialization mixins (embedded as the `kind` field).  The mutable
attributes set by the fluent builder methods are embedded as record
fields updated functionally. -/

/-- Which serialization mixin the concrete column class includes:
`PassthroughSerializationMixin`, `JSONSerializationMixin`,
`DateSerializationMixin`, `TimeSerializationMixin` or
`TimestampSerializationMixin`. -/
inductive ColumnKind where
  | passthrough
  | json
  | date
  | time
  | timestamp
  deriving DecidableEq, Repr

/-- base.py `ColumnType` instance state: `col_name`, the table
back-reference `_table_cls` (embedded by the owning table name used in
qualified rendering), the four builder attributes, plus the class-level
`get_sql_type()` string and serialization kind. -/
structure Column where
  colName : String
  tableName : Option String := Option.none
  isNullable : Bool := true
  isUnique : Bool := false
  isPrimaryKey : Bool := false
  defaultValue : Option PyVal := Option.none
  sqlType : String := ""
  kind : ColumnKind := ColumnKind.passthrough

/-- `ColumnType.not_null()`: sets `is_nullable = False` and returns self. -/
def Column.not_null (c : Column) : Column := { c with isNullable := false }

/-- `ColumnType.nullable()`: sets `is_nullable = True` and returns self. -/
def Column.nullable (c : Column) : Column := { c with isNullable := true }

/-- `ColumnType.unique()`: sets `is_unique = True` and returns self. -/
def Column.unique (c : Column) : Column := { c with isUnique := true }

/-- `ColumnType.primary_key()`: sets `is_primary_key = True` and returns self. -/
def Column.primary_key (c : Column) : Column := { c with isPrimaryKey := true }

/-- `ColumnType.default(value)`: sets `default_value` and returns self. -/
def Column.default (c : Column) (v : PyVal) : Column := { c with defaultValue := some v }

/-- `ColumnType._get_qualified_name()`: `f"{table}.{col}"` when the column
carries a table back-reference, else just the column name. -/
def Column.getQualifiedName (c : Column) : String :=
  match c.tableName with
  | some t => t ++ "." ++ c.colName
  | _ => c.colName

/-! ## The expression AST (query/__init__.py)

`BinaryExpression`, `UnaryExpression` and `FunctionExpression` nodes, with
operands that may be nested expressions, column references or literals.
The `other` constructor stands for an operand of any type outside the
scalar whitelist of `_operand_to_sql`, represented by its `str()` text. -/

inductive SqlNode where
  | binary (left : SqlNode) (op : String) (right : SqlNode)
  | unary (op : String) (operand : SqlNode)
  | func (functionName : String) (args : List SqlNode)
  | column (c : Column)
  | lit (v : PyVal)
  | other (s : String)

mutual

/-- `SQLExpression.to_sql(collector)` together with the
`_operand_to_sql(operand, collector)` dispatch (query/__init__.py):
expression nodes recurse; a column operand renders its qualified name; a
scalar literal (str/int/float/bool/date/time/datetime/None) is registered
with the collector and replaced by the returned placeholder; any other
operand is registered as `str(operand)`.  The collector state is passed
explicitly. -/
def SqlNode.toSql : SqlNode → Collector → String × Collector
  | .binary l op r, c =>
    let (leftSql, c1) := l.toSql c
    let (rightSql, c2) := r.toSql c1
    ("(" ++ leftSql ++ " " ++ op ++ " " ++ rightSql ++ ")", c2)
  | .unary op x, c =>
    let (operandSql, c1) := x.toSql c
    ("(" ++ op ++ " " ++ operandSql ++ ")", c1)
  | .func functionName args, c =>
    match args with
    | [] => (functionName ++ "()", c)
    | _ :: _ =>
      let (argStrings, c1) := SqlNode.listToSql args c
      (functionName ++ "(" ++ String.intercalate ", " argStrings ++ ")", c1)
  | .column col, c => (col.getQualifiedName, c)
  | .lit v, c =>
    match v with
    | .list _ => c.add (.str (pystr v))
    | .dict _ => c.add (.str (pystr v))
    | _ => c.add v
  | .other s, c => c.add (.str s)

/-- The list comprehension `[self._operand_to_sql(arg, collector) for arg
in self.args]` of `FunctionExpression.to_sql`. -/
def SqlNode.listToSql : List SqlNode → Collector → List String × Collector
  | [], c => ([], c)
  | a :: rest, c =>
    let (s, c1) := a.toSql c
    let (ss, c2) := SqlNode.listToSql rest c1
    (s :: ss, c2)

end

/-- `FunctionExpression.__init__(self, function_name, *args)`: the
signature accepts only positional arguments after the name, so Python
raises a `TypeError` for any keyword argument.  `kwargs` lists the keyword
names supplied at a call site. -/
def functionExpressionInit (functionName : String) (args : List SqlNode)
    (kwargs : List String) : Except PyError SqlNode :=
  match kwargs with
  | [] => .ok (.func functionName args)
  | k :: _ =>
    .error (.typeError ("FunctionExpression.__init__() got an unexpected keyword argument "
      ++ pyQuote ++ k ++ pyQuote))

/-- base.py `CountOperatorMixin.count()`:
`FunctionExpression("COUNT", self)` (no keyword arguments). -/
def Column.count (c : Column) : Except PyError SqlNode :=
  functionExpressionInit "COUNT" [.column c] []

/-- base.py `CountOperatorMixin.count_distinct()`:
`FunctionExpression("COUNT", self, modifier="DISTINCT")` — the call passes
the keyword argument `modifier`. -/
def Column.count_distinct (c : Column) : Except PyError SqlNode :=
  functionExpressionInit "COUNT" [.column c] ["modifier"]

/-- base.py `OrderedOperatorMixin.__gt__`:
`BinaryExpression(self, ">", other)` with the column itself as the left
operand. -/
def Column.gt (c : Column) (other : SqlNode) : SqlNode :=
  .binary (.column c) ">" other

/-! ## JSON encoding and decoding (`json.dumps` / `json.loads`)

`JSONSerializationMixin` encodes through `json.dumps` with default
options (item separators ", " and ": ", `ensure_ascii`) and decodes
through `json.loads`.  The encoder below returns `Option.none` exactly
where `json.dumps` raises `TypeError` (a value outside the JSON model);
the decoder is a fuel-indexed recursive-descent parser over the
characters. -/

/-- Lowercase hexadecimal digit. -/
def hexDigitChar (n : Nat) : Char :=
  Char.ofNat (if n < 10 then 48 + n else 87 + n)

/-- Four-digit lowercase hexadecimal rendering, as in a `\uXXXX` escape. -/
def hex4 (n : Nat) : List Char :=
  [hexDigitChar (n / 4096 % 16), hexDigitChar (n / 256 % 16),
   hexDigitChar (n / 16 % 16), hexDigitChar (n % 16)]

/-- `json.dumps` escaping of one character of a string: the two-character
escapes for quote, backslash and the C0 controls with short names, a
`\u00XX` escape for the remaining controls, a `\uXXXX` escape for
non-ASCII (ensure_ascii; the embedding covers the basic multilingual
plane), and the character itself otherwise. -/
def jsonEscapeChar (c : Char) : List Char :=
  let n := c.toNat
  if n == 34 then [Char.ofNat 92, Char.ofNat 34]
  else if n == 92 then [Char.ofNat 92, Char.ofNat 92]
  else if n == 8 then [Char.ofNat 92, Char.ofNat 98]
  else if n == 9 then [Char.ofNat 92, Char.ofNat 116]
  else if n == 10 then [Char.ofNat 92, Char.ofNat 110]
  else if n == 12 then [Char.ofNat 92, Char.ofNat 102]
  else if n == 13 then [Char.ofNat 92, Char.ofNat 114]
  else if n < 32 || n > 126 then [Char.ofNat 92, Char.ofNat 117] ++ hex4 n
  else [c]

/-- `json.dumps` rendering of a string, quotes included. -/
def jsonQuote (s : String) : String :=
  String.mk ([Char.ofNat 34] ++ (s.data.map jsonEscapeChar).flatten ++ [Char.ofNat 34])

mutual

/-- `json.dumps` with default options; `Option.none` where Python raises
`TypeError` (the `datetime` family is not JSON serializable). -/
def jsonDumps : PyVal → Option String
  | .none => some "null"
  | .bool b => some (if b then "true" else "false")
  | .int n => some (toString n)
  | .str s => some (jsonQuote s)
  | .list xs =>
    (jsonDumpsList xs).map (fun ss => "[" ++ String.intercalate ", " ss ++ "]")
  | .dict kvs =>
    (jsonDumpsDict kvs).map (fun ss => "\x7b" ++ String.intercalate ", " ss ++ "\x7d")
  | .date _ => Option.none
  | .time _ => Option.none
  | .datetime _ => Option.none

def jsonDumpsList : List PyVal → Option (List String)
  | [] => some []
  | v :: rest =>
    match jsonDumps v, jsonDumpsList rest with
    | some s, some ss => some (s :: ss)
    | _, _ => Option.none

def jsonDumpsDict : List (String × PyVal) → Option (List String)
  | [] => some []
  | (k, v) :: rest =>
    match jsonDumps v, jsonDumpsDict rest with
    | some s, some ss => some ((jsonQuote k ++ ": " ++ s) :: ss)
    | _, _ => Option.none

end

/-- The whitespace characters `json.loads` skips between tokens. -/
def isJsonWs (c : Char) : Bool :=
  c.toNat == 32 || c.toNat == 9 || c.toNat == 10 || c.toNat == 13

/-- Skip JSON whitespace. -/
def skipWs (l : List Char) : List Char := l.dropWhile isJsonWs

/-- Value of one hexadecimal digit. -/
def hexVal (c : Char) : Option Nat :=
  let n := c.toNat
  if 48 ≤ n && n ≤ 57 then some (n - 48)
  else if 97 ≤ n && n ≤ 102 then some (n - 87)
  else if 65 ≤ n && n ≤ 70 then some (n - 55)
  else Option.none

/-- Value of one decimal digit. -/
def digitVal (c : Char) : Option Nat :=
  if c.isDigit then some (c.toNat - 48) else Option.none

/-- Parses the body of a JSON string after the opening quote, undoing the
escapes, and returns the decoded characters plus the remainder after the
closing quote. -/
def jsonParseStrChars : List Char → Option (List Char × List Char)
  | [] => Option.none
  | c :: rest =>
    if c.toNat == 34 then some ([], rest)
    else if c.toNat == 92 then
      match rest with
      | [] => Option.none
      | e :: rest2 =>
        if e.toNat == 117 then
          match rest2 with
          | h1 :: h2 :: h3 :: h4 :: rest3 =>
            match hexVal h1, hexVal h2, hexVal h3, hexVal h4 with
            | some a, some b, some c1, some d1 =>
              (jsonParseStrChars rest3).map
                (fun p => (Char.ofNat (a * 4096 + b * 256 + c1 * 16 + d1) :: p.1, p.2))
            | _, _, _, _ => Option.none
          | _ => Option.none
        else
          let decoded : Option Char :=
            if e.toNat == 34 then some (Char.ofNat 34)
            else if e.toNat == 92 then some (Char.ofNat 92)
            else if e.toNat == 47 then some (Char.ofNat 47)
            else if e.toNat == 98 then some (Char.ofNat 8)
            else if e.toNat == 102 then some (Char.ofNat 12)
            else if e.toNat == 110 then some (Char.ofNat 10)
            else if e.toNat == 114 then some (Char.ofNat 13)
            else if e.toNat == 116 then some (Char.ofNat 9)
            else Option.none
          match decoded with
          | some ch => (jsonParseStrChars rest2).map (fun p => (ch :: p.1, p.2))
          | _ => Option.none
    else (jsonParseStrChars rest).map (fun p => (c :: p.1, p.2))

/-- Reads a run of decimal digits, accumulating their value. -/
def parseDigitsAux (acc : Nat) : List Char → Nat × List Char
  | [] => (acc, [])
  | c :: rest =>
    if c.isDigit then parseDigitsAux (acc * 10 + (c.toNat - 48)) rest
    else (acc, c :: rest)

/-- Reads a non-empty run of decimal digits. -/
def parseDigits : List Char → Option (Nat × List Char)
  | [] => Option.none
  | c :: rest =>
    if c.isDigit then some (parseDigitsAux (c.toNat - 48) rest)
    else Option.none

mutual

/-- `json.loads` value parser (integers only among numbers, which covers
every output of the embedded `jsonDumps`).  The fuel argument bounds the
recursion depth. -/
def jsonParseVal : Nat → List Char → Option (PyVal × List Char)
  | 0, _ => Option.none
  | Nat.succ fuel, l =>
    match skipWs l with
    | [] => Option.none
    | c :: rest =>
      if c.toNat == 34 then
        (jsonParseStrChars rest).map (fun p => (.str (String.mk p.1), p.2))
      else if c.toNat == 91 then
        match skipWs rest with
        | c2 :: rest2 =>
          if c2.toNat == 93 then some (.list [], rest2)
          else
            (jsonParseArrItems fuel (skipWs rest)).map (fun p => (.list p.1, p.2))
        | [] => Option.none
      else if c.toNat == 123 then
        match skipWs rest with
        | c2 :: rest2 =>
          if c2.toNat == 125 then some (.dict [], rest2)
          else
            (jsonParseObjItems fuel (skipWs rest)).map (fun p => (.dict p.1, p.2))
        | [] => Option.none
      else if c.toNat == 116 then
        match rest with
        | r1 :: r2 :: r3 :: rest2 =>
          if r1.toNat == 114 && r2.toNat == 117 && r3.toNat == 101 then
            some (.bool true, rest2)
          else Option.none
        | _ => Option.none
      else if c.toNat == 102 then
        match rest with
        | r1 :: r2 :: r3 :: r4 :: rest2 =>
          if r1.toNat == 97 && r2.toNat == 108 && r3.toNat == 115 && r4.toNat == 101 then
            some (.bool false, rest2)
          else Option.none
        | _ => Option.none
      else if c.toNat == 110 then
        match rest with
        | r1 :: r2 :: r3 :: rest2 =>
          if r1.toNat == 117 && r2.toNat == 108 && r3.toNat == 108 then
            some (.none, rest2)
          else Option.none
        | _ => Option.none
      else if c.toNat == 45 then
        (parseDigits rest).map (fun p => (.int (-(p.1 : Int)), p.2))
      else if c.isDigit then
        (parseDigits (c :: rest)).map (fun p => (.int (p.1 : Int), p.2))
      else Option.none

/-- Comma-separated JSON array items up to the closing bracket. -/
def jsonParseArrItems : Nat → List Char → Option (List PyVal × List Char)
  | 0, _ => Option.none
  | Nat.succ fuel, l =>
    match jsonParseVal fuel l with
    | some (v, r) =>
      match skipWs r with
      | c :: r2 =>
        if c.toNat == 44 then
          (jsonParseArrItems fuel (skipWs r2)).map (fun p => (v :: p.1, p.2))
        else if c.toNat == 93 then some ([v], r2)
        else Option.none
      | [] => Option.none
    | _ => Option.none

/-- Comma-separated JSON object entries up to the closing brace. -/
def jsonParseObjItems : Nat → List Char → Option (List (String × PyVal) × List Char)
  | 0, _ => Option.none
  | Nat.succ fuel, l =>
    match skipWs l with
    | c :: rest =>
      if c.toNat == 34 then
        match jsonParseStrChars rest with
        | some (kcs, r) =>
          match skipWs r with
          | c2 :: r2 =>
            if c2.toNat == 58 then
              match jsonParseVal fuel (skipWs r2) with
              | some (v, r3) =>
                match skipWs r3 with
                | c3 :: r4 =>
                  if c3.toNat == 44 then
                    (jsonParseObjItems fuel (skipWs r4)).map
                      (fun p => ((String.mk kcs, v) :: p.1, p.2))
                  else if c3.toNat == 125 then some ([(String.mk kcs, v)], r4)
                  else Option.none
                | [] => Option.none
              | _ => Option.none
            else Option.none
          | [] => Option.none
        | _ => Option.none
      else Option.none
    | [] => Option.none

end

/-- `json.loads`: parses one value and requires only whitespace after it;
`Option.none` where Python raises. -/
def jsonLoads (s : String) : Option PyVal :=
  match jsonParseVal (s.data.length + 1) s.data with
  | some (v, r) => if skipWs r = [] then some v else Option.none
  | _ => Option.none

/-! ## ISO-format parsing (`date/time/datetime.fromisoformat`)

The parsers below cover the canonical forms that `isoformat()` itself
produces (the exact inputs the deserialization mixins receive back from
the database); `fromisoformat` accepts these and validates the field
ranges through the class constructors, raising `ValueError` otherwise. -/

/-- Reads an exactly-two-digit field. -/
def parse2 : List Char → Option (Nat × List Char)
  | c1 :: c2 :: rest =>
    match digitVal c1, digitVal c2 with
    | some d1, some d2 => some (d1 * 10 + d2, rest)
    | _, _ => Option.none
  | _ => Option.none

/-- Reads an exactly-four-digit field. -/
def parse4 (l : List Char) : Option (Nat × List Char) :=
  match parse2 l with
  | some (hi, r) =>
    match parse2 r with
    | some (lo, r2) => some (hi * 100 + lo, r2)
    | _ => Option.none
  | _ => Option.none

/-- Reads an exactly-six-digit field. -/
def parse6 (l : List Char) : Option (Nat × List Char) :=
  match parse4 l with
  | some (hi, r) =>
    match parse2 r with
    | some (lo, r2) => some (hi * 100 + lo, r2)
    | _ => Option.none
  | _ => Option.none

/-- The Gregorian leap-year rule used by `datetime.date`. -/
def isLeapYear (y : Nat) : Bool :=
  y % 4 == 0 && (y % 100 != 0 || y % 400 == 0)

/-- Days in a month, as enforced by the `datetime.date` constructor. -/
def daysInMonth (y m : Nat) : Nat :=
  if m == 2 then (if isLeapYear y then 29 else 28)
  else if m == 4 || m == 6 || m == 9 || m == 11 then 30
  else 31

/-- The field ranges the `datetime.date` constructor accepts
(`MINYEAR = 1`, `MAXYEAR = 9999`). -/
def isValidDate (y m d : Nat) : Bool :=
  decide (1 ≤ y ∧ y ≤ 9999 ∧ 1 ≤ m ∧ m ≤ 12 ∧ 1 ≤ d ∧ d ≤ daysInMonth y m)

/-- The field ranges the `datetime.time` constructor accepts. -/
def isValidTime (h mi s u : Nat) : Bool :=
  decide (h ≤ 23 ∧ mi ≤ 59 ∧ s ≤ 59 ∧ u ≤ 999999)

/-- Reads the `YYYY-MM-DD` fields, returning the remainder. -/
def parseDateFields : List Char → Option ((Nat × Nat × Nat) × List Char)
  | l =>
    match parse4 l with
    | some (y, c :: rest) =>
      if c.toNat == 45 then
        match parse2 rest with
        | some (m, c2 :: rest2) =>
          if c2.toNat == 45 then
            match parse2 rest2 with
            | some (d, rest3) => some ((y, m, d), rest3)
            | _ => Option.none
          else Option.none
        | _ => Option.none
      else Option.none
    | _ => Option.none

/-- `datetime.date.fromisoformat` on a canonical `YYYY-MM-DD` string,
validated through the `date` constructor. -/
def parseDateChars (l : List Char) : Option PyDate :=
  match parseDateFields l with
  | some ((y, m, d), []) =>
    if isValidDate y m d then some { year := y, month := m, day := d } else Option.none
  | _ => Option.none

/-- Reads `HH:MM:SS` optionally followed by `.ffffff`, consuming the whole
input. -/
def parseTimeFields : List Char → Option (Nat × Nat × Nat × Nat)
  | l =>
    match parse2 l with
    | some (h, c :: rest) =>
      if c.toNat == 58 then
        match parse2 rest with
        | some (mi, c2 :: rest2) =>
          if c2.toNat == 58 then
            match parse2 rest2 with
            | some (s, []) => some (h, mi, s, 0)
            | some (s, c3 :: rest3) =>
              if c3.toNat == 46 then
                match parse6 rest3 with
                | some (u, []) => some (h, mi, s, u)
                | _ => Option.none
              else Option.none
            | _ => Option.none
          else Option.none
        | _ => Option.none
      else Option.none
    | _ => Option.none

/-- `datetime.time.fromisoformat` on a canonical string, validated through
the `time` constructor. -/
def parseTimeChars (l : List Char) : Option PyTime :=
  match parseTimeFields l with
  | some (h, mi, s, u) =>
    if isValidTime h mi s u then
      some { hour := h, minute := mi, second := s, microsecond := u }
    else Option.none
  | _ => Option.none

/-- `datetime.datetime.fromisoformat` on a canonical string (date fields,
the `T` separator, then the time fields), validated through the
constructor. -/
def parseDatetimeChars (l : List Char) : Option PyDateTime :=
  match parseDateFields l with
  | some ((y, m, d), c :: rest) =>
    if c.toNat == 84 then
      match parseTimeChars rest with
      | some t =>
        if isValidDate y m d then
          some { date := { year := y, month := m, day := d }, time := t }
        else Option.none
      | _ => Option.none
    else Option.none
  | _ => Option.none

/-! ## The serialization mixins (base.py)

`serialize` maps None to None and otherwise encodes; `deserialize` maps
None to None, decodes strings, and passes through an already-decoded
value (the PostgreSQL driver case). -/

/-- The shared `value.isoformat()` body of the date/time/timestamp
serialization mixins. -/
def serializeIso (v : PyVal) : Except PyError PyVal :=
  match v with
  | .none => .ok .none
  | .date d => .ok (.str (isoDate d))
  | .time t => .ok (.str (isoTime t))
  | .datetime dt => .ok (.str (isoDatetime dt))
  | _ => .error (.attributeError "object has no attribute isoformat")

/-- `serialize(value)` of the mixin selected by the column kind.
Passthrough returns the value; JSON encodes through `json.dumps` (a
`TypeError` where the value is not JSON serializable); the three
`datetime` mixins call `value.isoformat()` (an `AttributeError` where the
value has no such method). -/
def serializeColumn : ColumnKind → PyVal → Except PyError PyVal
  | .passthrough, v => .ok v
  | .json, v =>
    match v with
    | .none => .ok .none
    | v =>
      match jsonDumps v with
      | some s => .ok (.str s)
      | _ => .error (.typeError "Object of this type is not JSON serializable")
  | .date, v => serializeIso v
  | .time, v => serializeIso v
  | .timestamp, v => serializeIso v

/-- `deserialize(db_value)` of the mixin selected by the column kind:
None passes through, a string is decoded (`ValueError` where the decoder
rejects it), anything else is returned as already decoded. -/
def deserializeColumn : ColumnKind → PyVal → Except PyError PyVal
  | .passthrough, v => .ok v
  | .json, v =>
    match v with
    | .none => .ok .none
    | .str s =>
      match jsonLoads s with
      | some u => .ok u
      | _ => .error (.valueError "Invalid JSON")
    | v => .ok v
  | .date, v =>
    match v with
    | .none => .ok .none
    | .str s =>
      match parseDateChars s.data with
      | some d => .ok (.date d)
      | _ => .error (.valueError "Invalid isoformat string")
    | v => .ok v
  | .time, v =>
    match v with
    | .none => .ok .none
    | .str s =>
      match parseTimeChars s.data with
      | some t => .ok (.time t)
      | _ => .error (.valueError "Invalid isoformat string")
    | v => .ok v
  | .timestamp, v =>
    match v with
    | .none => .ok .none
    | .str s =>
      match parseDatetimeChars s.data with
      | some dt => .ok (.datetime dt)
      | _ => .error (.valueError "Invalid isoformat string")
    | v => .ok v

/-- `deserialize(serialize(v))`, the round trip of one column kind. -/
def serializeRoundTrip (k : ColumnKind) (v : PyVal) : Except PyError PyVal :=
  match serializeColumn k v with
  | .ok w => deserializeColumn k w
  | .error e => .error e

/-! ## Schema column definitions (schema.py `generate_column_sql`) -/

/-- schema.py `generate_column_sql(column, dialect)`: starts from
`f"{column.col_name} {column.get_sql_type()}"`, appends `PRIMARY KEY`,
`NOT NULL`, `UNIQUE` (the last suppressed for primary keys) and a
`DEFAULT` clause (single-quoted for strings, the dialect boolean literal
or 0/1 for booleans, `str()` otherwise), then joins the parts with a
space. -/
def generateColumnSql (column : Column) (dialect : Dialect) : String :=
  let parts := [column.colName ++ " " ++ column.sqlType]
  let parts := if column.isPrimaryKey then parts ++ ["PRIMARY KEY"] else parts
  let parts := if !column.isNullable then parts ++ ["NOT NULL"] else parts
  let parts := if column.isUnique && !column.isPrimaryKey then parts ++ ["UNIQUE"] else parts
  let parts :=
    match column.defaultValue with
    | some (.str s) => parts ++ ["DEFAULT " ++ pyQuote ++ s ++ pyQuote]
    | some (.bool b) =>
      if dialect = .sqlite then parts ++ ["DEFAULT " ++ (if b then "1" else "0")]
      else parts ++ ["DEFAULT " ++ (if b then "TRUE" else "FALSE")]
    | some v => parts ++ ["DEFAULT " ++ pystr v]
    | _ => parts
  String.intercalate " " parts

/-! ## The INSERT builder (query/insert.py)

The builder's straight-line `get_sql` method is compiled into a cascade of
helper functions, one per validation loop, each returning the first error
the corresponding Python loop would raise. -/

/-- `row_values.keys()` of a dict embedded as an insertion-ordered
association list. -/
def keysOf (row : List (String × PyVal)) : List String := row.map Prod.fst

/-- Lexicographic comparison of character lists by code point, the order
CPython uses to compare strings. -/
def charListLe : List Char → List Char → Bool
  | [], _ => true
  | _ :: _, [] => false
  | a :: as, b :: bs =>
    if a.toNat < b.toNat then true
    else if b.toNat < a.toNat then false
    else charListLe as bs

/-- CPython string comparison (code-point lexicographic). -/
def strLe (s t : String) : Bool := charListLe s.data t.data

/-- Insertion step of an ascending insertion sort on strings. -/
def insertSorted (s : String) : List String → List String
  | [] => [s]
  | t :: rest => if strLe s t then s :: t :: rest else t :: insertSorted s rest

/-- Ascending lexicographic sort, as CPython `sorted` on strings. -/
def sortStrings : List String → List String
  | [] => []
  | s :: rest => insertSorted s (sortStrings rest)

/-- `sorted(set(keys))`: the canonical (sorted, duplicate-free) form of a
key set, used both for the set-equality test and for the error message. -/
def sortedSet (keys : List String) : List String := sortStrings keys.eraseDups

/-- CPython `repr`/`str` of a list of strings, as interpolated by an
f-string: the elements between single quotes, ", "-separated, in square
brackets. -/
def pyReprStrList (ls : List String) : String :=
  "[" ++ String.intercalate ", " (ls.map (fun s => pyQuote ++ s ++ pyQuote)) ++ "]"

/-- The message of the `QueryError` raised for a column name missing from
the table: `f"Column '{column_name}' does not exist in table '{table_name}'"`. -/
def unknownColumnMsg (columnName tableName : String) : String :=
  "Column " ++ pyQuote ++ columnName ++ pyQuote ++ " does not exist in table "
    ++ pyQuote ++ tableName ++ pyQuote

/-- The message of the `QueryError` raised for a batch row whose key set
differs from the first row's:
`f"Row {i} has different columns than first row. Expected: {sorted(first_row_columns)}, got: {sorted(row_columns)}"`. -/
def mismatchMsg (i : Nat) (expected got : List String) : String :=
  "Row " ++ toString i ++ " has different columns than first row. Expected: "
    ++ pyReprStrList expected ++ ", got: " ++ pyReprStrList got

/-- The first validation loop of `InsertBuilder.get_sql`: scans the rows
in order and, within a row, the keys in insertion order, returning the
first column name not present in the table's column map. -/
def firstMissing (tcols : List String) : List (List (String × PyVal)) → Option String
  | [] => Option.none
  | r :: rs =>
    match (keysOf r).find? (fun k => !(tcols.contains k)) with
    | some k => some k
    | _ => firstMissing tcols rs

/-- The second validation loop of `InsertBuilder.get_sql`
(`enumerate(values_list[1:], 1)`): returns the first row, with its
1-based index, whose key set differs from the first row's
(`first` is the canonical form of the first row's key set). -/
def findMismatch (first : List String) :
    List (List (String × PyVal)) → Nat → Option (Nat × List (String × PyVal))
  | [], _ => Option.none
  | r :: rs, i =>
    if sortedSet (keysOf r) = first then findMismatch first rs (i + 1) else some (i, r)

/-- One row of the serialization loop: for each column name of the first
row, looks up the column, applies its `serialize`, registers the result
with the collector and keeps the returned placeholder. -/
def serializeRowValues (tcols : List (String × Column)) (row : List (String × PyVal)) :
    List String → Collector → Except PyError (List String × Collector)
  | [], c => .ok ([], c)
  | k :: rest, c =>
    match tcols.find? (fun p => p.1 == k) with
    | some (_, col) =>
      match row.find? (fun p => p.1 == k) with
      | some (_, v) =>
        match serializeColumn col.kind v with
        | .ok w =>
          let (ph, c1) := c.add w
          match serializeRowValues tcols row rest c1 with
          | .ok (ss, c2) => .ok (ph :: ss, c2)
          | .error e => .error e
        | .error e => .error e
      | _ => .error (.keyError k)
    | _ => .error (.keyError k)

/-- The outer serialization loop: renders each row as a parenthesized
", "-joined placeholder group, threading the collector. -/
def buildValueRows (tcols : List (String × Column)) (cols : List String) :
    List (List (String × PyVal)) → Collector → Except PyError (List String × Collector)
  | [], c => .ok ([], c)
  | r :: rs, c =>
    match serializeRowValues tcols r cols c with
    | .ok (ss, c1) =>
      match buildValueRows tcols cols rs c1 with
      | .ok (rows, c2) => .ok (("(" ++ String.intercalate ", " ss ++ ")") :: rows, c2)
      | .error e => .error e
    | .error e => .error e

/-- The `values` slot of `InsertConfig`: a single row dict or a list of
row dicts. -/
inductive InsertValues where
  | single (row : List (String × PyVal))
  | batch (rows : List (List (String × PyVal)))

/-- `values_list = self.config.values if isinstance(self.config.values, list)
else [self.config.values]`. -/
def InsertValues.toList : InsertValues → List (List (String × PyVal))
  | .single r => [r]
  | .batch rs => rs

/-- The state an `InsertBuilder` reads in `get_sql`: the target table's
name and column map (`table.get_table_name()` / `table.get_columns()`),
the connection dialect, and the configured values. -/
structure InsertState where
  tableName : String
  tableColumns : List (String × Column)
  dialect : Dialect
  values : Option InsertValues := Option.none

/-- `InsertBuilder.values(values)`: stores a copy of the row (or of each
row of the batch) in the configuration and returns self. -/
def InsertState.setValues (s : InsertState) (v : InsertValues) : InsertState :=
  { s with values := some v }

/-- The body of `InsertBuilder.get_sql`, in source order: missing-values
check, unknown-column validation, batch key-set validation (only when
more than one row), `values_list[0]` (an `IndexError` on an empty batch),
then serialization and SQL assembly. -/
def insertGetSqlCore (s : InsertState) : Except PyError (String × List PyVal) :=
  match s.values with
  | Option.none => .error (.queryError "INSERT query requires values. Use .values() method.")
  | some vals =>
    let valuesList := vals.toList
    match firstMissing (s.tableColumns.map Prod.fst) valuesList with
    | some k => .error (.queryError (unknownColumnMsg k s.tableName))
    | Option.none =>
      match valuesList with
      | [] => .error (.indexError "list index out of range")
      | r0 :: rest =>
        let mismatch :=
          match rest with
          | [] => Option.none
          | _ :: _ => findMismatch (sortedSet (keysOf r0)) rest 1
        match mismatch with
        | some (i, r) =>
          .error (.queryError (mismatchMsg i (sortedSet (keysOf r0)) (sortedSet (keysOf r))))
        | Option.none =>
          let columns := keysOf r0
          let columnList := String.intercalate ", " columns
          match buildValueRows s.tableColumns columns valuesList (Collector.init s.dialect) with
          | .ok (valueRows, c2) =>
            .ok ("INSERT INTO " ++ s.tableName ++ " (" ++ columnList ++ ") VALUES "
              ++ String.intercalate ", " valueRows, c2.params)
          | .error e => .error e

/-- `InsertBuilder.get_sql()` as a state transformer: the method reads
`self.table` and `self.config` and assigns nothing to `self`, so the
builder state it leaves behind is the state it was called on. -/
def insertGetSql (s : InsertState) : Except PyError (String × List PyVal) × InsertState :=
  (insertGetSqlCore s, s)

/-! ## The SELECT builder (query/select.py)

`SelectBase.get_sql` renders every expression through
`x.to_sql(dialect, collector)` — two positional arguments — although
`SQLExpression.to_sql` (query/__init__.py) accepts only `(collector)`;
the interpreter therefore raises `TypeError` at each such call site.
Moreover select.py's `isinstance(column, ColumnType)` test names
`schemix.columns.ColumnType`, a different class from
`schemix.base.ColumnType`, so a projection or ORDER BY entry that is a
base.py-style column falls into the `to_sql` branch and raises
`AttributeError`.  The three possibilities are embedded as the three
`SelectEntry` constructors. -/

/-- A projection or ORDER BY entry as dispatched by select.py:
`oldColumn` is an instance of `schemix.columns.ColumnType` (matches the
`isinstance` test and renders by qualified name), `newColumn` is an
instance of `schemix.base.ColumnType` (fails the test and has no
`to_sql` attribute), `expr` is an `SQLExpression` (fails the test; its
`to_sql` accepts one positional argument, not two). -/
inductive SelectEntry where
  | oldColumn (c : Column)
  | newColumn (c : Column)
  | expr (e : SqlNode)

/-- The class name Python reports for an expression node. -/
def SqlNode.className : SqlNode → String
  | .binary .. => "BinaryExpression"
  | .unary .. => "UnaryExpression"
  | .func .. => "FunctionExpression"
  | _ => "SQLExpression"

/-- The `TypeError` the interpreter raises at
`expr.to_sql(dialect, collector)`: the method accepts one positional
argument besides `self`, but two are passed. -/
def wrongArityToSql (e : SqlNode) : PyError :=
  .typeError (e.className
    ++ ".to_sql() takes from 1 to 2 positional arguments but 3 were given")

/-- The `AttributeError` the interpreter raises when `to_sql` is looked
up on a base.py-style column object. -/
def noToSqlAttr (c : Column) : PyError :=
  .attributeError ("column object " ++ pyQuote ++ c.colName ++ pyQuote
    ++ " has no attribute " ++ pyQuote ++ "to_sql" ++ pyQuote)

/-- The projection loop of `SelectBase.get_sql`: a column matching the
`isinstance` test renders `qualified AS alias`; anything else reaches the
`column.to_sql(dialect, collector)` call and raises. -/
def renderProjection : List (String × SelectEntry) → Collector →
    Except PyError (List String × Collector)
  | [], c => .ok ([], c)
  | (aliasName, entry) :: rest, c =>
    match entry with
    | .oldColumn col =>
      match renderProjection rest c with
      | .ok (ss, c1) => .ok ((col.getQualifiedName ++ " AS " ++ aliasName) :: ss, c1)
      | .error e => .error e
    | .newColumn col => .error (noToSqlAttr col)
    | .expr e => .error (wrongArityToSql e)

/-- The ORDER BY loop of `SelectBase.get_sql`, with the same dispatch as
the projection loop. -/
def renderOrderBy : List SelectEntry → Collector →
    Except PyError (List String × Collector)
  | [], c => .ok ([], c)
  | entry :: rest, c =>
    match entry with
    | .oldColumn col =>
      match renderOrderBy rest c with
      | .ok (ss, c1) => .ok (col.getQualifiedName :: ss, c1)
      | .error e => .error e
    | .newColumn col => .error (noToSqlAttr col)
    | .expr e => .error (wrongArityToSql e)

/-- select.py `JoinType` literals. -/
inductive JoinType where
  | inner
  | left
  | right
  | full
  | cross
  deriving DecidableEq, Repr

/-- `join.join_type.upper()`. -/
def JoinType.upperName : JoinType → String
  | .inner => "INNER"
  | .left => "LEFT"
  | .right => "RIGHT"
  | .full => "FULL"
  | .cross => "CROSS"

/-- select.py `JoinClause` dataclass (the target table embedded by
`join.table.get_table_name()`). -/
structure JoinClause where
  joinType : JoinType
  tableName : String
  onExpr : Option SqlNode := Option.none

/-- The JOIN loop of `SelectBase.get_sql`: every join appends
`" {TYPE} JOIN {table}"`; a non-cross join with an ON expression then
reaches `join.on.to_sql(dialect, collector)` and raises. -/
def renderJoins : List JoinClause → Collector → Except PyError (String × Collector)
  | [], c => .ok ("", c)
  | j :: rest, c =>
    let base := " " ++ j.joinType.upperName ++ " JOIN " ++ j.tableName
    match j.joinType, j.onExpr with
    | .cross, _ =>
      match renderJoins rest c with
      | .ok (s, c1) => .ok (base ++ s, c1)
      | .error e => .error e
    | _, some e => .error (wrongArityToSql e)
    | _, Option.none =>
      match renderJoins rest c with
      | .ok (s, c1) => .ok (base ++ s, c1)
      | .error e => .error e

/-- select.py `SelectConfig` dataclass (every slot defaulting to None). -/
structure SelectConfig where
  whereExpr : Option SqlNode := Option.none
  havingExpr : Option SqlNode := Option.none
  groupBy : Option (List Column) := Option.none
  orderBy : Option (List SelectEntry) := Option.none
  limit : Option Int := Option.none
  offset : Option Int := Option.none
  joins : Option (List JoinClause) := Option.none

/-- The state `SelectBase.get_sql` reads: the projection dict, the source
table name (`self.table.get_table_name()`), the connection dialect
(`self.database.connection.dialect`) and the accumulated configuration. -/
structure SelectState where
  columns : List (String × SelectEntry)
  tableName : String
  dialect : Dialect
  config : SelectConfig := {}

/-- `SelectBase.where(expression)`: overwrites the where slot, returns self. -/
def SelectState.setWhere (s : SelectState) (e : SqlNode) : SelectState :=
  { s with config := { s.config with whereExpr := some e } }

/-- `SelectBase.having(expression)`. -/
def SelectState.setHaving (s : SelectState) (e : SqlNode) : SelectState :=
  { s with config := { s.config with havingExpr := some e } }

/-- `SelectBase.group_by(*columns)`. -/
def SelectState.setGroupBy (s : SelectState) (cols : List Column) : SelectState :=
  { s with config := { s.config with groupBy := some cols } }

/-- `SelectBase.order_by(*args)`. -/
def SelectState.setOrderBy (s : SelectState) (entries : List SelectEntry) : SelectState :=
  { s with config := { s.config with orderBy := some entries } }

/-- `SelectBase.limit(limit)`. -/
def SelectState.setLimit (s : SelectState) (n : Int) : SelectState :=
  { s with config := { s.config with limit := some n } }

/-- `SelectBase.offset(offset)`. -/
def SelectState.setOffset (s : SelectState) (n : Int) : SelectState :=
  { s with config := { s.config with offset := some n } }

/-- `SelectBase._create_join`: initializes the join list when absent and
appends the new clause (joins accumulate in call order). -/
def SelectState.createJoin (s : SelectState) (jt : JoinType) (tableName : String)
    (onExpr : Option SqlNode) : SelectState :=
  let js := match s.config.joins with
    | some l => l
    | _ => []
  { s with config := { s.config with
      joins := some (js ++ [{ joinType := jt, tableName := tableName, onExpr := onExpr }]) } }

/-- The body of `SelectBase.get_sql`, in source order: projection list,
FROM, JOIN clauses, WHERE, GROUP BY, HAVING, ORDER BY, LIMIT, OFFSET.
Each configured expression slot reaches a two-positional-argument
`to_sql` call and raises before anything later is rendered. -/
def selectGetSqlCore (s : SelectState) : Except PyError (String × List PyVal) :=
  match renderProjection s.columns (Collector.init s.dialect) with
  | .error e => .error e
  | .ok (selectColumns, c1) =>
    let sql := "SELECT " ++ String.intercalate ", " selectColumns ++ " FROM " ++ s.tableName
    let joinsRendered :=
      match s.config.joins with
      | some js => renderJoins js c1
      | _ => .ok ("", c1)
    match joinsRendered with
    | .error e => .error e
    | .ok (joinSql, c2) =>
      let sql := sql ++ joinSql
      match s.config.whereExpr with
      | some e => .error (wrongArityToSql e)
      | Option.none =>
        let sql := sql ++
          match s.config.groupBy with
          | some cols =>
            " GROUP BY " ++ String.intercalate ", " (cols.map Column.getQualifiedName)
          | _ => ""
        match s.config.havingExpr with
        | some e => .error (wrongArityToSql e)
        | Option.none =>
          let orderRendered :=
            match s.config.orderBy with
            | some entries => renderOrderBy entries c2
            | _ => .ok ([], c2)
          match orderRendered with
          | .error e => .error e
          | .ok (orderClauses, c3) =>
            let sql := sql ++
              match s.config.orderBy with
              | some _ => " ORDER BY " ++ String.intercalate ", " orderClauses
              | _ => ""
            let sql := sql ++
              match s.config.limit with
              | some n => " LIMIT " ++ toString n
              | _ => ""
            let sql := sql ++
              match s.config.offset with
              | some n => " OFFSET " ++ toString n
              | _ => ""
            .ok (sql, c3.params)

/-- `SelectBase.get_sql()` as a state transformer: the method assigns
nothing to `self`, so the builder state it leaves behind is the state it
was called on. -/
def selectGetSql (s : SelectState) : Except PyError (String × List PyVal) × SelectState :=
  (selectGetSqlCore s, s)

/-! ## Symmetric difference of key sets -/

/-- The symmetric difference of two column-name lists: the names in
exactly one of the two. -/
def keysSymmDiff (a b : List String) : List String :=
  a.filter (fun k => !(b.contains k)) ++ b.filter (fun k => !(a.contains k))

/-! ## Concrete fixtures used by the example-level claims -/

/-- An integer column named `age` owned by a table named `users`
(`Integer("age")` registered on a table with `__tablename__ = "users"`). -/
def usersAgeColumn : Column :=
  { colName := "age", tableName := some "users", sqlType := "INTEGER" }

/-- A column named `a` of an example table. -/
def exampleColumnA : Column := { colName := "a", sqlType := "INTEGER" }

/-- A column named `b` of an example table. -/
def exampleColumnB : Column := { colName := "b", sqlType := "INTEGER" }

/-- An insert builder over a table `users` with columns `a` and `b`, on a
sqlite connection, before `.values(...)` is called. -/
def exampleInsertBuilder : InsertState :=
  { tableName := "users", tableColumns := [("a", exampleColumnA), ("b", exampleColumnB)],
    dialect := .sqlite }

/-- `db.select({"age": age}).from_(users).where(age > 18)` with `age` a
column of the `schemix.columns` hierarchy (the class select.py's
`isinstance` test names): the projection renders, the WHERE expression
raises. -/
def exampleBrokenSelect : SelectState :=
  SelectState.setWhere
    { columns := [("age", .oldColumn usersAgeColumn)], tableName := "users",
      dialect := .sqlite }
    (usersAgeColumn.gt (.lit (.int 18)))

/-- A select configuration that exercises every clause the builder can
render without reaching a broken `to_sql` call site: plain-column
projection, a cross join, GROUP BY, LIMIT and OFFSET. -/
def exampleRenderableSelect : SelectState :=
  SelectState.setOffset
    (SelectState.setLimit
      (SelectState.setGroupBy
        (SelectState.createJoin
          { columns := [("age", .oldColumn usersAgeColumn)], tableName := "users",
            dialect := .postgresql }
          .cross "posts" Option.none)
        [usersAgeColumn]) 10) 5

/-- The example column of C10: `Integer("id").primary_key().not_null().unique()`. -/
def exampleConstrainedColumn : Column :=
  (({ colName := "id", sqlType := "INTEGER" } : Column).primary_key).not_null.unique

/-- The spec-side description of a generated column-definition line
(§4.7): name and SQL type, then `PRIMARY KEY`, `NOT NULL`, `UNIQUE` and
the default clause, in that fixed order, each only when applicable, with
`UNIQUE` suppressed whenever `PRIMARY KEY` is present.  Stated from the
spec's words, to be compared with `generateColumnSql`. -/
def specColumnLine (c : Column) (d : Dialect) : String :=
  String.intercalate " "
    ([c.colName ++ " " ++ c.sqlType]
      ++ (if c.isPrimaryKey then ["PRIMARY KEY"] else [])
      ++ (if !c.isNullable then ["NOT NULL"] else [])
      ++ (if c.isUnique && !c.isPrimaryKey then ["UNIQUE"] else [])
      ++ (match c.defaultValue with
          | some (.str s) => ["DEFAULT " ++ pyQuote ++ s ++ pyQuote]
          | some (.bool b) =>
            if d = .sqlite then ["DEFAULT " ++ (if b then "1" else "0")]
            else ["DEFAULT " ++ (if b then "TRUE" else "FALSE")]
          | some v => ["DEFAULT " ++ pystr v]
          | _ => []))

/-- A batch whose first row references a column missing from the table
and whose second row also has a different key set: both insert
validations are violated at once, and the unknown-column error must win. -/
def exampleMixedBatchValues : InsertValues :=
  .batch [[("a", .int 1), ("unknown_col", .int 5)], [("a", .int 3)]]

/-! ## Supporting lemmas -/

/-- Feeding `vs` to an arbitrary collector: the i-th returned placeholder
is the one for position `|params| + i`, the parameters are appended in
order, and the dialect is unchanged. -/
theorem addAll_general (vs : List PyVal) : ∀ c : Collector,
    (c.addAll vs).1
        = (List.range vs.length).map (fun i => getPlaceholder c.dialect (c.params.length + i))
      ∧ (c.addAll vs).2.params = c.params ++ vs
      ∧ (c.addAll vs).2.dialect = c.dialect := by
  induction vs with
  | nil => intro c; simp [Collector.addAll]
  | cons v rest ih =>
    intro c
    obtain ⟨h1, h2, h3⟩ := ih { dialect := c.dialect, params := c.params ++ [v] }
    refine ⟨?_, ?_, ?_⟩
    · simp only [Collector.addAll, Collector.add, h1, List.length_cons,
        List.range_succ_eq_map, List.map_cons, List.map_map]
      congr 1
      · congr 1
        simp
      · apply List.map_congr_left
        intro i _
        simp only [Function.comp_apply, List.length_append, List.length_cons,
          List.length_nil]
        congr 1
        omega
    · simp only [Collector.addAll, Collector.add, h2]
      simp
    · simp only [Collector.addAll, Collector.add, h3]

/-! ## The claims -/

/-- C1: for every `ParameterCollector` (as constructed by `__init__`) and
every sequence of values v1..vN passed to `add` in that order, the Nth
call to `add` returns the placeholder for position N-1 under the
collector's dialect, and after the calls the collector's parameters
sequence equals [v1, ..., vN]. -/
theorem claim_C1_collector_invariant : ∀ (d : Dialect) (vs : List PyVal),
    ((Collector.init d).addAll vs).1 = (List.range vs.length).map (getPlaceholder d)
    ∧ (∀ n, n < vs.length →
        (((Collector.init d).addAll vs).1)[n]? = some (getPlaceholder d n))
    ∧ ((Collector.init d).addAll vs).2.params = vs := by
  intro d vs
  obtain ⟨h1, h2, _⟩ := addAll_general vs (Collector.init d)
  have hmap : ((Collector.init d).addAll vs).1
      = (List.range vs.length).map (getPlaceholder d) := by
    rw [h1]
    apply List.map_congr_left
    intro i _
    simp [Collector.init]
  refine ⟨hmap, ?_, by simpa [Collector.init] using h2⟩
  intro n hn
  rw [hmap]
  simp [List.getElem?_map, List.getElem?_range hn]

/-- Witness for C1 at a concrete dialect and value sequence: the third
call (N = 3) returns the placeholder for position 2, and the parameters
come back in call order. -/
theorem claim_C1_collector_invariant_witness :
    (((Collector.init .postgresql).addAll [.int 7, .str "x", .none]).1)[2]?
        = some (getPlaceholder .postgresql 2)
    ∧ ((Collector.init .postgresql).addAll [.int 7, .str "x", .none]).2.params
        = [.int 7, .str "x", .none] :=
  ⟨(claim_C1_collector_invariant .postgresql [.int 7, .str "x", .none]).2.1 2 (by decide),
   (claim_C1_collector_invariant .postgresql [.int 7, .str "x", .none]).2.2⟩

/-- C2: for every non-negative position, `get_placeholder` returns `"?"`
under sqlite (independent of the position) and `"$"` followed by
position+1 under postgresql. -/
theorem claim_C2_placeholder_forms : ∀ position : Nat,
    getPlaceholder .sqlite position = "?"
    ∧ (∀ other : Nat, getPlaceholder .sqlite position = getPlaceholder .sqlite other)
    ∧ getPlaceholder .postgresql position = "$" ++ Nat.repr (position + 1) :=
  fun _ => ⟨rfl, fun _ => rfl, rfl⟩

/-- C3: rendering `(age > 18)` for the integer column `age` of table
`users` with a fresh postgresql collector yields the SQL text
`"(users.age > $1)"` and the parameter sequence `[18]`. -/
theorem claim_C3_binary_expression_render :
    (usersAgeColumn.gt (.lit (.int 18))).toSql (Collector.init .postgresql)
      = ("(users.age > $1)", { dialect := .postgresql, params := [.int 18] }) := rfl

/-- C4: `get_sql` assigns nothing to the builder, so calling it twice in
a row on a fixed select or insert configuration returns identical
results (identical SQL text and parameters on success, the same raised
error otherwise). -/
theorem claim_C4_get_sql_idempotent :
    ∀ (s : SelectState) (t : InsertState),
      ((selectGetSql ((selectGetSql s).2)).1 = (selectGetSql s).1
        ∧ (selectGetSql s).2 = s)
      ∧ ((insertGetSql ((insertGetSql t).2)).1 = (insertGetSql t).1
        ∧ (insertGetSql t).2 = t) :=
  fun _ _ => ⟨⟨rfl, rfl⟩, ⟨rfl, rfl⟩⟩

theorem digitVal_ofNat : ∀ k, k < 10 → digitVal (Char.ofNat (48 + k)) = some k := by decide

theorem parse2_print2 (n : Nat) (h : n < 100) (rest : List Char) :
    parse2 (print2 n ++ rest) = some (n, rest) := by
  have h1 := digitVal_ofNat (n / 10 % 10) (by omega)
  have h2 := digitVal_ofNat (n % 10) (by omega)
  simp only [print2, List.cons_append, List.nil_append, parse2, h1, h2]
  congr 2
  omega

theorem parse2_print2_nil (n : Nat) (h : n < 100) : parse2 (print2 n) = some (n, []) := by
  have := parse2_print2 n h []
  simpa using this

theorem parse4_print22 (a b : Nat) (ha : a < 100) (hb : b < 100) (rest : List Char) :
    parse4 (print2 a ++ print2 b ++ rest) = some (a * 100 + b, rest) := by
  rw [parse4, List.append_assoc, parse2_print2 a ha]
  dsimp only
  rw [parse2_print2 b hb]

theorem parse4_print4 (n : Nat) (h : n < 10000) (rest : List Char) :
    parse4 (print4 n ++ rest) = some (n, rest) := by
  rw [print4, List.append_assoc, ← List.append_assoc,
    parse4_print22 _ _ (by omega) (by omega)]
  congr 2
  omega

theorem parse6_print6 (n : Nat) (h : n < 1000000) (rest : List Char) :
    parse6 (print6 n ++ rest) = some (n, rest) := by
  have hassoc : print6 n ++ rest
      = print2 (n / 10000) ++ print2 (n / 100 % 100) ++ (print2 (n % 100) ++ rest) := by
    simp [print6, List.append_assoc]
  rw [parse6, hassoc, parse4_print22 _ _ (by omega) (by omega)]
  dsimp only
  rw [parse2_print2 _ (by omega)]
  have hdd : n / 100 / 100 = n / 10000 := by
    rw [Nat.div_div_eq_div_mul]
  have heq : (n / 10000 * 100 + n / 100 % 100) * 100 + n % 100 = n := by omega
  simp [heq]

theorem parse6_print6_nil (n : Nat) (h : n < 1000000) : parse6 (print6 n) = some (n, []) := by
  have := parse6_print6 n h []
  simpa using this

theorem parseDateFields_iso (y m d : Nat) (hy : y < 10000) (hm : m < 100) (hd : d < 100)
    (rest : List Char) :
    parseDateFields (isoDateChars { year := y, month := m, day := d } ++ rest)
      = some ((y, m, d), rest) := by
  simp only [isoDateChars, parseDateFields, List.append_assoc, List.singleton_append]
  rw [parse4_print4 y hy]
  simp [parse2_print2 m hm, parse2_print2 d hd]

theorem daysInMonth_le (y m : Nat) : daysInMonth y m ≤ 31 := by
  unfold daysInMonth
  split
  · split <;> omega
  · split <;> omega

theorem time_fields_iso (h mi s u : Nat) (hh : h < 100) (hm : mi < 100) (hs : s < 100)
    (hu : u < 1000000) :
    parseTimeFields (isoTimeChars { hour := h, minute := mi, second := s, microsecond := u })
      = some (h, mi, s, u) := by
  by_cases h0 : u = 0
  · subst h0
    have hbase : isoTimeChars { hour := h, minute := mi, second := s, microsecond := 0 }
        = print2 h ++ (Char.ofNat 58 :: (print2 mi ++ (Char.ofNat 58 :: print2 s))) := by
      simp [isoTimeChars, List.append_assoc, List.singleton_append]
    rw [parseTimeFields, hbase, parse2_print2 h hh]
    simp [parse2_print2 mi hm, parse2_print2_nil s hs]
  · have hbase : isoTimeChars { hour := h, minute := mi, second := s, microsecond := u }
        = print2 h ++ (Char.ofNat 58 :: (print2 mi
          ++ (Char.ofNat 58 :: (print2 s ++ (Char.ofNat 46 :: print6 u))))) := by
      simp [isoTimeChars, if_neg h0, List.append_assoc, List.singleton_append]
    rw [parseTimeFields, hbase, parse2_print2 h hh]
    simp [parse2_print2 mi hm, parse2_print2 s hs, parse6_print6_nil u hu]

theorem date_bounds (y m d : Nat) (hv : isValidDate y m d = true) :
    y < 10000 ∧ m < 100 ∧ d < 100 := by
  have h31 := daysInMonth_le y m
  simp only [isValidDate, decide_eq_true_eq] at hv
  omega

theorem date_round_trip (d : PyDate) (hv : isValidDate d.year d.month d.day = true) :
    serializeRoundTrip .date (.date d) = .ok (.date d) := by
  rcases d with ⟨y, m, dd⟩
  obtain ⟨hy, hm, hd⟩ := date_bounds y m dd hv
  simp only [serializeRoundTrip, serializeColumn, serializeIso, deserializeColumn]
  rw [show (isoDate { year := y, month := m, day := dd }).data
      = isoDateChars { year := y, month := m, day := dd } from rfl]
  rw [parseDateChars,
    show isoDateChars { year := y, month := m, day := dd }
      = isoDateChars { year := y, month := m, day := dd } ++ [] by simp]
  rw [parseDateFields_iso y m dd hy hm hd]
  simp [hv]

theorem time_bounds (h mi s u : Nat) (hv : isValidTime h mi s u = true) :
    h < 100 ∧ mi < 100 ∧ s < 100 ∧ u < 1000000 := by
  simp only [isValidTime, decide_eq_true_eq] at hv
  omega

theorem time_round_trip (t : PyTime)
    (hv : isValidTime t.hour t.minute t.second t.microsecond = true) :
    serializeRoundTrip .time (.time t) = .ok (.time t) := by
  rcases t with ⟨h, mi, s, u⟩
  obtain ⟨hh, hm, hs, hu⟩ := time_bounds h mi s u hv
  simp only [serializeRoundTrip, serializeColumn, serializeIso, deserializeColumn]
  rw [show (isoTime { hour := h, minute := mi, second := s, microsecond := u }).data
      = isoTimeChars { hour := h, minute := mi, second := s, microsecond := u } from rfl]
  rw [parseTimeChars, time_fields_iso h mi s u hh hm hs hu]
  simp [hv]

theorem datetime_round_trip (dt : PyDateTime)
    (hvd : isValidDate dt.date.year dt.date.month dt.date.day = true)
    (hvt : isValidTime dt.time.hour dt.time.minute dt.time.second dt.time.microsecond = true) :
    serializeRoundTrip .timestamp (.datetime dt) = .ok (.datetime dt) := by
  rcases dt with ⟨⟨y, m, dd⟩, ⟨h, mi, s, u⟩⟩
  obtain ⟨hy, hm2, hd⟩ := date_bounds y m dd hvd
  obtain ⟨hh, hmi, hs, hu⟩ := time_bounds h mi s u hvt
  simp only [serializeRoundTrip, serializeColumn, serializeIso, deserializeColumn]
  rw [show (isoDatetime ⟨⟨y, m, dd⟩, ⟨h, mi, s, u⟩⟩).data
      = isoDatetimeChars ⟨⟨y, m, dd⟩, ⟨h, mi, s, u⟩⟩ from rfl]
  rw [parseDatetimeChars]
  have hassoc : isoDatetimeChars ⟨⟨y, m, dd⟩, ⟨h, mi, s, u⟩⟩
      = isoDateChars ⟨y, m, dd⟩ ++ (Char.ofNat 84 :: isoTimeChars ⟨h, mi, s, u⟩) := by
    simp [isoDatetimeChars, List.append_assoc, List.singleton_append]
  rw [hassoc, parseDateFields_iso y m dd hy hm2 hd]
  simp [parseTimeChars, time_fields_iso h mi s u hh hmi hs hu, hvt, hvd]

/-- C5: for every serializable column kind and representative values of
its domain, `deserialize(serialize(v)) == v`: for every value under the
passthrough mixin; for every valid date, time and naive timestamp; for
None under every kind; and for representative JSON values (null, both
booleans, positive and negative integers, plain and escape-laden strings,
a list, and a nested dict). -/
theorem claim_C5_round_trip :
    (∀ v : PyVal, serializeRoundTrip .passthrough v = .ok v)
    ∧ (∀ d : PyDate, isValidDate d.year d.month d.day = true →
        serializeRoundTrip .date (.date d) = .ok (.date d))
    ∧ (∀ t : PyTime, isValidTime t.hour t.minute t.second t.microsecond = true →
        serializeRoundTrip .time (.time t) = .ok (.time t))
    ∧ (∀ dt : PyDateTime, isValidDate dt.date.year dt.date.month dt.date.day = true →
        isValidTime dt.time.hour dt.time.minute dt.time.second dt.time.microsecond = true →
        serializeRoundTrip .timestamp (.datetime dt) = .ok (.datetime dt))
    ∧ serializeRoundTrip .date .none = .ok .none
    ∧ serializeRoundTrip .time .none = .ok .none
    ∧ serializeRoundTrip .timestamp .none = .ok .none
    ∧ serializeRoundTrip .json .none = .ok .none
    ∧ serializeRoundTrip .json (.bool true) = .ok (.bool true)
    ∧ serializeRoundTrip .json (.bool false) = .ok (.bool false)
    ∧ serializeRoundTrip .json (.int 42) = .ok (.int 42)
    ∧ serializeRoundTrip .json (.int (-7)) = .ok (.int (-7))
    ∧ serializeRoundTrip .json (.str "hello") = .ok (.str "hello")
    ∧ serializeRoundTrip .json (.str "he said \x22hi\x22, tab\x09line\x0aback\x5cslash")
        = .ok (.str "he said \x22hi\x22, tab\x09line\x0aback\x5cslash")
    ∧ serializeRoundTrip .json (.list [.int 1, .int 2, .int 3])
        = .ok (.list [.int 1, .int 2, .int 3])
    ∧ serializeRoundTrip .json
          (.dict [("a", .int 1), ("b", .list [.bool false, .none]),
            ("c", .dict [("d", .str "x")])])
        = .ok (.dict [("a", .int 1), ("b", .list [.bool false, .none]),
            ("c", .dict [("d", .str "x")])]) :=
  ⟨fun _ => rfl, date_round_trip, time_round_trip, datetime_round_trip,
   rfl, rfl, rfl, rfl, rfl, rfl, rfl, rfl, rfl, rfl, rfl, rfl⟩

/-- Witness for C5 at concrete inputs: a leap-day date, a
microsecond-bearing time and a New-Year-eve timestamp all round-trip. -/
theorem claim_C5_round_trip_witness :
    serializeRoundTrip .date (.date ⟨2024, 2, 29⟩) = .ok (.date ⟨2024, 2, 29⟩)
    ∧ serializeRoundTrip .time (.time ⟨23, 59, 59, 123456⟩)
        = .ok (.time ⟨23, 59, 59, 123456⟩)
    ∧ serializeRoundTrip .timestamp (.datetime ⟨⟨1999, 12, 31⟩, ⟨0, 0, 59, 0⟩⟩)
        = .ok (.datetime ⟨⟨1999, 12, 31⟩, ⟨0, 0, 59, 0⟩⟩) :=
  ⟨claim_C5_round_trip.2.1 ⟨2024, 2, 29⟩ (by decide),
   claim_C5_round_trip.2.2.1 ⟨23, 59, 59, 123456⟩ (by decide),
   claim_C5_round_trip.2.2.2.1 ⟨⟨1999, 12, 31⟩, ⟨0, 0, 59, 0⟩⟩ (by decide) (by decide)⟩

/-- The first insert validation loop finds nothing exactly when every
key of every row is a column of the table. -/
theorem firstMissing_none_iff (tcols : List String) (rows : List (List (String × PyVal))) :
    firstMissing tcols rows = Option.none
      ↔ ∀ r ∈ rows, ∀ k ∈ keysOf r, tcols.contains k = true := by
  induction rows with
  | nil => simp [firstMissing]
  | cons r rs ih =>
    rw [firstMissing]
    cases hf : (keysOf r).find? (fun k => !(tcols.contains k)) with
    | none =>
      have hr : ∀ k ∈ keysOf r, tcols.contains k = true := by
        intro k hk
        have := List.find?_eq_none.mp hf k hk
        simpa using this
      simp only [ih]
      constructor
      · intro hrs
        intro r2 hr2
        rcases List.mem_cons.mp hr2 with rfl | hmem
        · exact hr
        · exact hrs r2 hmem
      · intro hall r2 hr2 k hk
        exact hall r2 (List.mem_cons_of_mem r hr2) k hk
    | some k =>
      have hk := List.mem_of_find?_eq_some hf
      have hp := List.find?_some hf
      simp only [Bool.not_eq_eq_eq_not, Bool.not_true] at hp
      constructor
      · intro h
        simp at h
      · intro hall
        have := hall r (List.mem_cons_self r rs) k hk
        rw [this] at hp
        cases hp

/-- What the first insert validation loop returns: a key of some row that
is not a column of the table. -/
theorem firstMissing_some_spec (tcols : List String) (rows : List (List (String × PyVal)))
    (k : String) (h : firstMissing tcols rows = some k) :
    tcols.contains k = false ∧ ∃ r ∈ rows, k ∈ keysOf r := by
  induction rows with
  | nil => simp [firstMissing] at h
  | cons r rs ih =>
    rw [firstMissing] at h
    cases hf : (keysOf r).find? (fun k => !(tcols.contains k)) with
    | none =>
      rw [hf] at h
      obtain ⟨h1, r2, hr2, hk2⟩ := ih h
      exact ⟨h1, r2, List.mem_cons_of_mem r hr2, hk2⟩
    | some k0 =>
      rw [hf] at h
      cases h
      have hk := List.mem_of_find?_eq_some hf
      have hp := List.find?_some hf
      simp only [Bool.not_eq_eq_eq_not, Bool.not_true] at hp
      exact ⟨hp, r, List.mem_cons_self r rs, hk⟩

/-- If some row references a missing column, the first validation loop
fires. -/
theorem firstMissing_isSome (tcols : List String) (rows : List (List (String × PyVal)))
    (h : ∃ r ∈ rows, ∃ k ∈ keysOf r, tcols.contains k = false) :
    ∃ k, firstMissing tcols rows = some k := by
  cases hEq : firstMissing tcols rows with
  | some k => exact ⟨k, rfl⟩
  | none =>
    obtain ⟨r, hr, k, hk, hc⟩ := h
    have := (firstMissing_none_iff tcols rows).mp hEq r hr k hk
    rw [this] at hc
    cases hc

/-- If some row's key set differs from the first row's, the batch
validation loop fires. -/
theorem findMismatch_isSome (first : List String) (rows : List (List (String × PyVal))) :
    ∀ i, (∃ r ∈ rows, sortedSet (keysOf r) ≠ first) →
      ∃ j r, findMismatch first rows i = some (j, r) := by
  induction rows with
  | nil => intro i h; simp at h
  | cons a rs ih =>
    intro i h
    rw [findMismatch]
    by_cases h0 : sortedSet (keysOf a) = first
    · rw [if_pos h0]
      apply ih
      rcases h with ⟨r, hr, hne⟩
      rcases List.mem_cons.mp hr with rfl | hmem
      · exact absurd h0 hne
      · exact ⟨r, hmem, hne⟩
    · rw [if_neg h0]
      exact ⟨i, a, rfl⟩

/-- What the batch validation loop returns: the index is at least the
starting index, it locates the offending row, that row's key set differs,
and every earlier row's key set agrees — the loop reports the first
mismatch. -/
theorem findMismatch_some_spec (first : List String) (rows : List (List (String × PyVal))) :
    ∀ i j r, findMismatch first rows i = some (j, r) →
      i ≤ j ∧ rows[j - i]? = some r ∧ sortedSet (keysOf r) ≠ first
        ∧ ∀ l, l < j - i → ∀ r2, rows[l]? = some r2 → sortedSet (keysOf r2) = first := by
  induction rows with
  | nil => intro i j r h; simp [findMismatch] at h
  | cons a rs ih =>
    intro i j r h
    rw [findMismatch] at h
    by_cases h0 : sortedSet (keysOf a) = first
    · rw [if_pos h0] at h
      obtain ⟨hij, hidx, hne, hbefore⟩ := ih (i + 1) j r h
      refine ⟨by omega, ?_, hne, ?_⟩
      · have hsub : j - i = (j - (i + 1)) + 1 := by omega
        rw [hsub]
        simpa using hidx
      · intro l hl r2 hr2
        cases l with
        | zero =>
          simp only [List.getElem?_cons_zero, Option.some.injEq] at hr2
          rw [← hr2]
          exact h0
        | succ m =>
          have hm : m < j - (i + 1) := by omega
          exact hbefore m hm r2 (by simpa using hr2)
    · rw [if_neg h0] at h
      cases h
      refine ⟨Nat.le_refl i, by simp, h0, ?_⟩
      intro l hl
      omega

/-- C7: whenever any row of an insert references a column name absent
from the target table's column map, `get_sql` raises a `QueryError`
naming the offending column and the table; the conclusion needs no
assumption about the batch key sets, so the unknown-column validation
fires even when the batch key-set check would also fail (it runs first).
In particular, inserting `{"unknown_col": 5}` raises a `QueryError`
naming `unknown_col` and `users`. -/
theorem claim_C7_unknown_column :
    (∀ (s : InsertState) (vals : InsertValues), s.values = some vals →
      (∃ r ∈ vals.toList, ∃ k ∈ keysOf r,
          (s.tableColumns.map Prod.fst).contains k = false) →
      ∃ k, (s.tableColumns.map Prod.fst).contains k = false
        ∧ (∃ r ∈ vals.toList, k ∈ keysOf r)
        ∧ insertGetSqlCore s = .error (.queryError (unknownColumnMsg k s.tableName)))
    ∧ insertGetSqlCore (exampleInsertBuilder.setValues (.single [("unknown_col", .int 5)]))
        = .error (.queryError ("Column " ++ pyQuote ++ "unknown_col" ++ pyQuote
            ++ " does not exist in table " ++ pyQuote ++ "users" ++ pyQuote)) := by
  constructor
  · intro s vals hv hex
    obtain ⟨k, hFM⟩ := firstMissing_isSome _ _ hex
    obtain ⟨hc, hr⟩ := firstMissing_some_spec _ _ _ hFM
    refine ⟨k, hc, hr, ?_⟩
    simp [insertGetSqlCore, hv, hFM]
  · rfl

/-- C6: for a batch insert whose rows all reference existing columns but
where some row's key set differs from the first row's, `get_sql` raises a
`QueryError` whose message carries the index of the first mismatched row
and the sorted expected and actual column-name sets (which determine
their symmetric difference).  In particular,
`[{"a": 1, "b": 2}, {"a": 3}]` raises a `QueryError` identifying row
index 1, and the symmetric difference of the two key sets is `["b"]`
(the missing key). -/
theorem claim_C6_batch_mismatch :
    (∀ (s : InsertState) (r0 : List (String × PyVal)) (rest : List (List (String × PyVal))),
      s.values = some (.batch (r0 :: rest)) →
      (∀ r ∈ r0 :: rest, ∀ k ∈ keysOf r, (s.tableColumns.map Prod.fst).contains k = true) →
      (∃ r ∈ rest, sortedSet (keysOf r) ≠ sortedSet (keysOf r0)) →
      ∃ i r, 1 ≤ i ∧ rest[i - 1]? = some r
        ∧ sortedSet (keysOf r) ≠ sortedSet (keysOf r0)
        ∧ (∀ l, l < i - 1 → ∀ r2, rest[l]? = some r2 →
            sortedSet (keysOf r2) = sortedSet (keysOf r0))
        ∧ insertGetSqlCore s
            = .error (.queryError
                (mismatchMsg i (sortedSet (keysOf r0)) (sortedSet (keysOf r)))))
    ∧ insertGetSqlCore (exampleInsertBuilder.setValues
          (.batch [[("a", .int 1), ("b", .int 2)], [("a", .int 3)]]))
        = .error (.queryError ("Row 1 has different columns than first row. Expected: ["
            ++ pyQuote ++ "a" ++ pyQuote ++ ", " ++ pyQuote ++ "b" ++ pyQuote ++ "], got: ["
            ++ pyQuote ++ "a" ++ pyQuote ++ "]"))
    ∧ keysSymmDiff (sortedSet (keysOf [("a", PyVal.int 1), ("b", PyVal.int 2)]))
          (sortedSet (keysOf [("a", PyVal.int 3)])) = ["b"] := by
  refine ⟨?_, rfl, rfl⟩
  intro s r0 rest hv hall hex
  have hFMnone : firstMissing (s.tableColumns.map Prod.fst) (r0 :: rest) = Option.none :=
    (firstMissing_none_iff _ _).mpr hall
  rcases rest with _ | ⟨r1, rs⟩
  · simp at hex
  · obtain ⟨j, r, hFind⟩ := findMismatch_isSome (sortedSet (keysOf r0)) (r1 :: rs) 1 hex
    obtain ⟨hij, hidx, hne, hbefore⟩ := findMismatch_some_spec _ _ 1 j r hFind
    refine ⟨j, r, hij, by simpa using hidx, hne, ?_, ?_⟩
    · intro l hl r2 hr2
      exact hbefore l (by omega) r2 hr2
    · simp [insertGetSqlCore, hv, hFMnone, InsertValues.toList, hFind]

/-- Witness for C7 at a concrete input that violates both insert
validations at once: the unknown-column error is the one raised. -/
theorem claim_C7_unknown_column_witness :
    ∃ k, ((exampleInsertBuilder.setValues exampleMixedBatchValues).tableColumns.map
          Prod.fst).contains k = false
      ∧ (∃ r ∈ exampleMixedBatchValues.toList, k ∈ keysOf r)
      ∧ insertGetSqlCore (exampleInsertBuilder.setValues exampleMixedBatchValues)
          = .error (.queryError (unknownColumnMsg k
              (exampleInsertBuilder.setValues exampleMixedBatchValues).tableName)) :=
  claim_C7_unknown_column.1 (exampleInsertBuilder.setValues exampleMixedBatchValues)
    exampleMixedBatchValues rfl (by decide)

/-- Witness for C6 at the concrete example batch
`[{"a": 1, "b": 2}, {"a": 3}]`. -/
theorem claim_C6_batch_mismatch_witness :
    ∃ i r, 1 ≤ i
      ∧ ([[("a", PyVal.int 3)]] : List (List (String × PyVal)))[i - 1]? = some r
      ∧ sortedSet (keysOf r) ≠ sortedSet (keysOf [("a", PyVal.int 1), ("b", PyVal.int 2)])
      ∧ (∀ l, l < i - 1 → ∀ r2, ([[("a", PyVal.int 3)]]
            : List (List (String × PyVal)))[l]? = some r2 →
          sortedSet (keysOf r2) = sortedSet (keysOf [("a", PyVal.int 1), ("b", PyVal.int 2)]))
      ∧ insertGetSqlCore (exampleInsertBuilder.setValues
            (.batch ([("a", PyVal.int 1), ("b", PyVal.int 2)] :: [[("a", PyVal.int 3)]])))
          = .error (.queryError (mismatchMsg i
              (sortedSet (keysOf [("a", PyVal.int 1), ("b", PyVal.int 2)]))
              (sortedSet (keysOf r)))) :=
  claim_C6_batch_mismatch.1 (exampleInsertBuilder.setValues
      (.batch ([("a", PyVal.int 1), ("b", PyVal.int 2)] :: [[("a", PyVal.int 3)]])))
    [("a", PyVal.int 1), ("b", PyVal.int 2)] [[("a", PyVal.int 3)]] rfl (by decide) (by decide)

/-- C8 (evaluation at the failing input): rendering a select with a WHERE
expression reaches `self.config.where.to_sql(dialect, collector)` — two
positional arguments against `SQLExpression.to_sql(self, collector=None)`
— and raises `TypeError` instead of rendering the WHERE clause; the
configuration built from the clauses that avoid every broken `to_sql`
call site (plain-column projection, cross join, GROUP BY, LIMIT, OFFSET)
does render, in the fixed order the claim states. -/
theorem claim_C8_select_render_order :
    (selectGetSql exampleBrokenSelect).1
        = .error (.typeError
            "BinaryExpression.to_sql() takes from 1 to 2 positional arguments but 3 were given")
    ∧ (selectGetSql exampleRenderableSelect).1
        = .ok ("SELECT users.age AS age FROM users CROSS JOIN posts"
            ++ " GROUP BY users.age LIMIT 10 OFFSET 5", []) :=
  ⟨rfl, rfl⟩

/-- C9 (evaluation at the failing input): `count_distinct()` passes the
keyword argument `modifier` to `FunctionExpression.__init__(self,
function_name, *args)`, which accepts no keyword arguments, so the call
raises `TypeError` instead of building a node that would render
`COUNT(DISTINCT users.age)`; `count()` (no keyword argument) constructs
its node, function nodes render `name(args…)` with no modifier support,
and an argument-less function node renders `name()`. -/
theorem claim_C9_count_distinct_modifier :
    usersAgeColumn.count_distinct
        = .error (.typeError
            ("FunctionExpression.__init__() got an unexpected keyword argument "
              ++ pyQuote ++ "modifier" ++ pyQuote))
    ∧ usersAgeColumn.count = .ok (.func "COUNT" [.column usersAgeColumn])
    ∧ (SqlNode.func "COUNT" [.column usersAgeColumn]).toSql (Collector.init .sqlite)
        = ("COUNT(users.age)", Collector.init .sqlite)
    ∧ (SqlNode.func "NOW" []).toSql (Collector.init .sqlite)
        = ("NOW()", Collector.init .sqlite) :=
  ⟨rfl, rfl, rfl, rfl⟩

/-- C10: for every column and dialect, the generated column-definition
line is the name and SQL type followed by `PRIMARY KEY`, `NOT NULL`,
`UNIQUE`, `DEFAULT literal`, in that fixed order, each only when
applicable, with `UNIQUE` suppressed whenever `PRIMARY KEY` is present
(`specColumnLine` states the spec's wording); in particular
`.primary_key().not_null().unique()` renders as
`"id INTEGER PRIMARY KEY NOT NULL"`. -/
theorem claim_C10_column_definition_line :
    (∀ (c : Column) (d : Dialect), generateColumnSql c d = specColumnLine c d)
    ∧ (∀ d : Dialect, generateColumnSql exampleConstrainedColumn d
        = "id INTEGER PRIMARY KEY NOT NULL") := by
  constructor
  · intro c d
    rcases c with ⟨nm, tb, nb, ub, pb, dv, ty, kd⟩
    rcases dv with _ | v
    · cases pb <;> cases nb <;> cases ub <;> rfl
    · rcases v with _ | b | n | st | xs | kvs | dd | tt | dtt <;>
        cases pb <;> cases nb <;> cases ub <;> first | rfl | (cases d <;> rfl)
  · intro d
    cases d <;> rfl
